import Mathlib

/-!
Verification of the ShelfScan book-metadata resolution engine
(`backend/server.js`) against its natural-language specification.

The JavaScript code is shallowly embedded: JS strings are `String`
(lists of characters), nullable values are `Option`, thrown/caught
exceptions are `Except`, JS `NaN` propagation through `parseInt`
arithmetic is `Option Nat`, floating-point ratings are `Rat`
(the claims only compare and order them), and the Redis / MariaDB
backends are explicit function-typed environments.
-/

namespace ShelfScan

/-! ### JS primitives -/

/-- JS `parseInt` applied to a single-character string: a decimal digit
parses to its value, anything else is `NaN` (modelled as `none`). -/
def parseIntChar (c : Char) : Option Nat :=
  if c = '0' then some 0
  else if c = '1' then some 1
  else if c = '2' then some 2
  else if c = '3' then some 3
  else if c = '4' then some 4
  else if c = '5' then some 5
  else if c = '6' then some 6
  else if c = '7' then some 7
  else if c = '8' then some 8
  else if c = '9' then some 9
  else none

/-- JS `Number.prototype.toString` for the single-digit checksum values
produced by the codec (`0`–`9`). -/
def natDigitChar (n : Nat) : Char :=
  match n with
  | 0 => '0' | 1 => '1' | 2 => '2' | 3 => '3' | 4 => '4'
  | 5 => '5' | 6 => '6' | 7 => '7' | 8 => '8' | 9 => '9'
  | _ => '?'

/-- JS `a || b` for strings: the empty string is falsy. -/
def jsOrStr (a b : String) : String := if a = "" then b else a

/-- JS `a || b` where `a`, `b` are string-or-nullish: `null`/`undefined`
and `""` are falsy. -/
def jsOrStrOpt (x y : Option String) : Option String :=
  match x with
  | some s => if s = "" then y else some s
  | none => y

/-- JS `a || b` where `a`, `b` are number-or-nullish: `null`/`undefined`
and `0` are falsy. -/
def jsOrNumOpt (x y : Option Nat) : Option Nat :=
  match x with
  | some n => if n = 0 then y else some n
  | none => y

/-- JS truthiness of a string-or-nullish value. -/
def jsTruthyS (x : Option String) : Bool :=
  match x with
  | some s => !(s == "")
  | none => false

/-- JS `x || null` for a string-or-nullish value (`""` collapses to `null`). -/
def jsOrNull (x : Option String) : Option String :=
  match x with
  | some s => if s = "" then none else some s
  | none => none

/-- JS `Number.prototype.toLocaleString` on a natural number: decimal
digits grouped in threes by commas. -/
def commaGroup : List Char → List Char
  | a :: b :: c :: d :: rest => a :: b :: c :: ',' :: commaGroup (d :: rest)
  | l => l

def toLocaleString (n : Nat) : String :=
  String.mk (List.reverse (commaGroup (toString n).data.reverse))

/-- The characters JS `encodeURIComponent` leaves unescaped. -/
def isUnreservedURI (c : Char) : Bool :=
  c.isAlpha || c.isDigit || c == '-' || c == '_' || c == '.' ||
  c == '!' || c == '~' || c == '*' || c.toNat == 39 || c == '(' || c == ')'

def hexDigitChar (n : Nat) : Char :=
  if n < 10 then Char.ofNat (48 + n) else Char.ofNat (55 + n)

/-- UTF-8 bytes of a character (as used by `encodeURIComponent`). -/
def utf8BytesOf (c : Char) : List Nat :=
  let n := c.toNat
  if n < 128 then [n]
  else if n < 2048 then [192 + n / 64, 128 + n % 64]
  else if n < 65536 then [224 + n / 4096, 128 + n / 64 % 64, 128 + n % 64]
  else [240 + n / 262144, 128 + n / 4096 % 64, 128 + n / 64 % 64, 128 + n % 64]

/-- JS `encodeURIComponent`. -/
def encodeURIComponent (s : String) : String :=
  String.mk (s.data.flatMap fun c =>
    if isUnreservedURI c then [c]
    else (utf8BytesOf c).flatMap fun b => ['%', hexDigitChar (b / 16), hexDigitChar (b % 16)])

/-- JS `String.prototype.toLowerCase` (character-wise, as a list map). -/
def strToLower (s : String) : String := String.mk (s.data.map Char.toLower)

/-- JS `String.prototype.trim`: drop leading and trailing whitespace. -/
def strTrim (s : String) : String :=
  String.mk (((s.data.dropWhile Char.isWhitespace).reverse.dropWhile Char.isWhitespace).reverse)

/-- JS `String.prototype.includes`. -/
def strIncludes (hay sub : String) : Bool :=
  (List.range (hay.data.length + 1)).any fun i => sub.data.isPrefixOf (hay.data.drop i)

/-- JS `str.replace(/[-\s]/g, '')`: drop hyphens and whitespace. -/
def cleanIsbnStr (s : String) : String :=
  String.mk (s.data.filter fun c => !(c == '-' || c.isWhitespace))

/-- JS `str.replace(/[^\d]/g, '')`: keep only decimal digits. -/
def stripNonDigits (s : String) : String :=
  String.mk (s.data.filter Char.isDigit)

/-! ### Identifier codec (`isbn10to13`, `isbn13to10` in `server.js`) -/

/-- The loop `for (let i = 0; i < 12; i++) sum += parseInt(base[i]) * (i % 2 === 0 ? 1 : 3)`
starting at position `i`; a non-digit makes the whole sum `NaN`. -/
def sumW13 : List Char → Nat → Option Nat
  | [], _ => some 0
  | c :: cs, i =>
    match parseIntChar c, sumW13 cs (i + 1) with
    | some d, some r => some (d * (if i % 2 = 0 then 1 else 3) + r)
    | _, _ => none

/-- The loop `for (let i = 0; i < 9; i++) sum += parseInt(base[i]) * (10 - i)`,
carried as the current weight `w = 10 - i`; a non-digit makes the sum `NaN`. -/
def sumW10 : List Char → Nat → Option Nat
  | [], _ => some 0
  | c :: cs, w =>
    match parseIntChar c, sumW10 cs (w - 1) with
    | some d, some r => some (d * w + r)
    | _, _ => none

/-- Function `isbn10to13` from `server.js`: requires length 10, synthesizes the
`978` prefix over the first nine characters and recomputes the ISBN-13
checksum.  A `NaN` checksum renders as the string `"NaN"`, exactly as
`checksum.toString()` does in JS. -/
def isbn10to13 (isbn10 : String) : Option String :=
  if isbn10.data.length = 10 then
    let base := '9' :: '7' :: '8' :: isbn10.data.take 9
    match sumW13 base 0 with
    | some sum => some (String.mk (base ++ [natDigitChar ((10 - sum % 10) % 10)]))
    | none => some (String.mk (base ++ ['N', 'a', 'N']))
  else none

/-- Function `isbn13to10` from `server.js`: requires length 13 and a `978` start,
takes characters 3–11 as the base and recomputes the ISBN-10 checksum
(`10` renders as `'X'`).  A `NaN` checksum renders as `"NaN"`. -/
def isbn13to10 (isbn13 : String) : Option String :=
  if isbn13.data.length = 13 then
    if isbn13.data.take 3 = ['9', '7', '8'] then
      let base := (isbn13.data.drop 3).take 9
      match sumW10 base 10 with
      | some sum =>
        let c := (11 - sum % 11) % 11
        some (String.mk (base ++ [if c = 10 then 'X' else natDigitChar c]))
      | none => some (String.mk (base ++ ['N', 'a', 'N']))
    else none
  else none

/-- The value of an ISBN-10 check character (`'X'` counts as 10). -/
def checkCharVal (c : Char) : Option Nat :=
  if c = 'X' then some 10 else parseIntChar c

/-- A valid ISBN-10 string: ten characters, the first nine decimal
digits, and a correct check character under the weighted mod-11 sum. -/
def isValidISBN10 (s : String) : Bool :=
  s.data.length = 10 &&
  (s.data.take 9).all (fun c => (parseIntChar c).isSome) &&
  (match sumW10 (s.data.take 9) 10, checkCharVal (s.data.getD 9 ' ') with
   | some n, some c => (n + c) % 11 == 0
   | _, _ => false)

/-! ### Data model -/

/-- A normalized record returned by a bibliographic adapter
(`searchGoogleBooks` / `searchOpenLibrary`).  Ratings are rationals;
the claims only compare and order them. -/
structure ProviderRecord where
  title : String
  author : String
  rating : Rat
  ratingsCount : Nat
  description : String
  thumbnail : Option String
  isbn : Option String
  infoLink : Option String
  publishYear : Option Nat
  source : String
deriving DecidableEq

/-- The `{rating, ratingsCount, source: 'goodreads'}` object produced by
`searchGoodreadsDB` (or found in the rating cache). -/
structure GoodreadsRating where
  rating : Rat
  ratingsCount : Nat
  source : String
deriving DecidableEq

/-- The object literal returned by `mergeBookData`. -/
structure MergedBook where
  title : String
  author : String
  rating : Rat
  ratingsCount : Nat
  ratingSource : String
  description : String
  thumbnail : Option String
  infoLink : Option String
  isbn : Option String
  publishYear : Option Nat
  goodreadsUrl : String
  amazonUrl : String
  sources : List String
deriving DecidableEq

/-- A row of the user's `reading_list` table (Supabase columns may be null). -/
structure ReadingListEntry where
  title : Option String
  author : Option String
  isbn : Option String
  isbn13 : Option String
  exclusive_shelf : Option String
  my_rating : Option Nat
  date_read : Option String
  date_added : Option String
deriving DecidableEq

/-- The object `checkReadingList` returns on a match (`matched: true` is
implicit in `some`). -/
structure MatchInfo where
  matchType : String
  shelf : Option String
  myRating : Option Nat
  dateRead : Option String
  dateAdded : Option String
deriving DecidableEq

/-! ### `mergeBookData` -/

/-- Test `rating > 0` on an optional Goodreads record
(JS `goodreadsRating?.rating > 0`; `undefined > 0` is false). -/
def grPos (gr : Option GoodreadsRating) : Bool :=
  match gr with
  | some r => decide (0 < r.rating)
  | none => false

/-- Test `rating > 0` on an optional provider record. -/
def recPos (x : Option ProviderRecord) : Bool :=
  match x with
  | some r => decide (0 < r.rating)
  | none => false

/-- Last link of the `if/else if` rating chain in `mergeBookData`:
the Open Library case, else the `'No ratings available'` default. -/
def pickRatingOL (openLibBook : Option ProviderRecord) : Rat × Nat × String :=
  match openLibBook with
  | some r =>
    if 0 < r.rating then
      (r.rating, r.ratingsCount, "Open Library (" ++ toLocaleString r.ratingsCount ++ " reviews)")
    else (0, 0, "No ratings available")
  | none => (0, 0, "No ratings available")

/-- Middle link of the chain: the Google Books case. -/
def pickRatingGB (googleBook openLibBook : Option ProviderRecord) : Rat × Nat × String :=
  match googleBook with
  | some r =>
    if 0 < r.rating then
      (r.rating, r.ratingsCount, "Google Books (" ++ toLocaleString r.ratingsCount ++ " reviews)")
    else pickRatingOL openLibBook
  | none => pickRatingOL openLibBook

/-- The full rating-selection chain of `mergeBookData`: Goodreads first,
then Google Books, then Open Library, else the default. -/
def pickRating (goodreadsRating : Option GoodreadsRating)
    (googleBook openLibBook : Option ProviderRecord) : Rat × Nat × String :=
  match goodreadsRating with
  | some r =>
    if 0 < r.rating then
      (r.rating, r.ratingsCount, "Goodreads (" ++ toLocaleString r.ratingsCount ++ " ratings)")
    else pickRatingGB googleBook openLibBook
  | none => pickRatingGB googleBook openLibBook

/-- Value of `process.env.AMAZON_AFFILIATE_TAG` with its default. -/
def affiliateTag : String := "shelfscan05-20"

/-- The Amazon URL construction inside `mergeBookData`. -/
def mkAmazonUrl (isbn : Option String) (originalTitle originalAuthor : String) : String :=
  if jsTruthyS isbn then
    let cleanIsbn := cleanIsbnStr (isbn.getD "")
    let amazonIsbn :=
      if cleanIsbn.data.length = 13 then
        match isbn13to10 cleanIsbn with
        | some isbn10 => isbn10
        | none => cleanIsbn
      else cleanIsbn
    if amazonIsbn.data.length = 10 then
      "https://www.amazon.com/dp/" ++ amazonIsbn ++ "?tag=" ++ affiliateTag
    else
      "https://www.amazon.com/s?k=" ++
        encodeURIComponent (originalTitle ++ " " ++ originalAuthor ++ " ISBN " ++ cleanIsbn) ++
        "&tag=" ++ affiliateTag
  else
    "https://www.amazon.com/s?k=" ++
      encodeURIComponent (originalTitle ++ " " ++ originalAuthor) ++ "&tag=" ++ affiliateTag

/-- Body of `mergeBookData` once at least one bibliographic record exists;
`primary = googleBook || openLibBook`, `secondary = openLibBook || googleBook`. -/
def buildMerged (googleBook openLibBook : Option ProviderRecord)
    (primary secondary : ProviderRecord) (goodreadsRating : Option GoodreadsRating)
    (originalTitle originalAuthor : String) : MergedBook :=
  let sel := pickRating goodreadsRating googleBook openLibBook
  let isbn := jsOrStrOpt primary.isbn secondary.isbn
  { title := jsOrStr primary.title originalTitle
    author := jsOrStr primary.author originalAuthor
    rating := sel.1
    ratingsCount := sel.2.1
    ratingSource := sel.2.2
    description :=
      if secondary.description.data.length < primary.description.data.length then
        primary.description
      else jsOrStr secondary.description (jsOrStr primary.description "No description available")
    thumbnail := jsOrStrOpt primary.thumbnail secondary.thumbnail
    infoLink := jsOrNull (googleBook.bind ProviderRecord.infoLink)
    isbn := isbn
    publishYear := jsOrNumOpt primary.publishYear (jsOrNumOpt secondary.publishYear none)
    goodreadsUrl :=
      if jsTruthyS isbn then "https://www.goodreads.com/book/isbn/" ++ isbn.getD ""
      else "https://www.goodreads.com/search?q=" ++
        encodeURIComponent (originalTitle ++ " " ++ originalAuthor)
    amazonUrl := mkAmazonUrl isbn originalTitle originalAuthor
    sources :=
      (if googleBook.isSome then ["Google Books"] else []) ++
      (if openLibBook.isSome then ["Open Library"] else []) }

/-- Function `mergeBookData(googleBook, openLibBook, goodreadsRating,
originalTitle, originalAuthor)` from `server.js`: `null` when both bibliographic sources
are missing, else the merged record. -/
def mergeBookData (googleBook openLibBook : Option ProviderRecord)
    (goodreadsRating : Option GoodreadsRating)
    (originalTitle originalAuthor : String) : Option MergedBook :=
  match googleBook, openLibBook with
  | none, none => none
  | some gb, some ol =>
    some (buildMerged (some gb) (some ol) gb ol goodreadsRating originalTitle originalAuthor)
  | some gb, none =>
    some (buildMerged (some gb) none gb gb goodreadsRating originalTitle originalAuthor)
  | none, some ol =>
    some (buildMerged none (some ol) ol ol goodreadsRating originalTitle originalAuthor)

/-! ### Tiered cache (`getFromCache` / `setCache`) -/

/-- The Redis client, abstracted over the (already JSON-decoded) value
type: `get` may return a value, a miss, or throw; `setEx` may throw.
The `JSON.parse` of `getFromCache` is folded into `get` since both run
inside the same `try` block. -/
structure RedisClient (α : Type) where
  get : String → Except String (Option α)
  setEx : String → Nat → α → Except String Unit

/-- The module-level `isRedisReady` flag and `redisClient` handle. -/
structure CacheCtx (α : Type) where
  isRedisReady : Bool
  redisClient : Option (RedisClient α)

/-- Function `getFromCache` from `server.js`: miss when the readiness flag is
down or the client is absent; a thrown backend error is caught, logged
and converted to a miss.  The result is `Except` to make "does not
throw" a provable statement. -/
def getFromCache {α : Type} (ctx : CacheCtx α) (key : String) : Except String (Option α) :=
  if ctx.isRedisReady = false then .ok none
  else
    match ctx.redisClient with
    | none => .ok none
    | some client =>
      match client.get key with
      | .ok data => .ok data
      | .error _ => .ok none

/-- Function `setCache` from `server.js`: returns the list of writes actually
performed on the backend (so "no-op" is observable).  Unreachable
backend or a thrown `setEx` yields no write and no exception. -/
def setCache {α : Type} (ctx : CacheCtx α) (key : String) (value : α)
    (expirySeconds : Nat) : Except String (List (String × Nat × α)) :=
  if ctx.isRedisReady = false then .ok []
  else
    match ctx.redisClient with
    | none => .ok []
    | some client =>
      match client.setEx key expirySeconds value with
      | .ok _ => .ok [(key, expirySeconds, value)]
      | .error _ => .ok []

/-- A client whose every backend operation throws. -/
def errClient (α : Type) : RedisClient α :=
  ⟨fun _ => .error "connection refused", fun _ _ _ => .error "connection refused"⟩

/-- A cache context that believes it is ready but whose backend always
throws. -/
def badCtx (α : Type) : CacheCtx α := ⟨true, some (errClient α)⟩

/-- The pure value a `getFromCache` call yields (it never throws). -/
def pureGet {α : Type} (ctx : CacheCtx α) (key : String) : Option α :=
  match getFromCache ctx key with
  | .ok v => v
  | .error _ => none

/-! ### Rating lookup (`searchGoodreadsDB`) -/

/-- A row of the `Scrape` table, with `parseFloat(star_rating) || 0` and
`parseInt(num_ratings) || 0` already applied. -/
structure GRRow where
  star_rating : Rat
  num_ratings : Nat
deriving DecidableEq

/-- The environment `searchGoodreadsDB` reads: the Redis context, the
`isMariaReady` flag and `mariaPool` handle, and the pooled
`SELECT ... WHERE isbn IN (?) LIMIT 1` query (which may throw; connection
acquisition failures after the 3 retries are folded into the same
`Except`, since the surrounding `try` treats them identically). -/
structure GREnv where
  redis : CacheCtx GoodreadsRating
  isMariaReady : Bool
  mariaPool : Bool
  dbQuery : List String → Except String (List GRRow)

/-- The `isbnVariants` array built by `searchGoodreadsDB` from the
cleaned identifier: the identifier itself, then its cross-format
conversion when one exists. -/
def isbnVariants (cleanIsbn : String) : List String :=
  cleanIsbn ::
    (if cleanIsbn.data.length = 13 then (isbn13to10 cleanIsbn).toList
     else if cleanIsbn.data.length = 10 then (isbn10to13 cleanIsbn).toList
     else [])

def rowToRating (row : GRRow) : GoodreadsRating :=
  ⟨row.star_rating, row.num_ratings, "goodreads"⟩

/-- The `for (const variant of isbnVariants)` cache loop: return the
first hit, fall through after every variant missed. -/
def grCacheLookup (ctx : CacheCtx GoodreadsRating) :
    List String → Except String (Option GoodreadsRating)
  | [] => .ok none
  | v :: vs =>
    match getFromCache ctx ("goodreads:" ++ v) with
    | .error e => .error e
    | .ok (some cached) => .ok (some cached)
    | .ok none => grCacheLookup ctx vs

/-- Function `searchGoodreadsDB` from `server.js`.  The cache loop runs outside
the `try`; the DB query and the 90-day cache write run inside it, so
their errors are caught and become `null`. -/
def searchGoodreadsDB (env : GREnv) (isbn : String) : Except String (Option GoodreadsRating) :=
  if isbn = "" then .ok none
  else
    let cleanIsbn := cleanIsbnStr isbn
    let variants := isbnVariants cleanIsbn
    match (if env.redis.isRedisReady then grCacheLookup env.redis variants else .ok none) with
    | .error e => .error e
    | .ok (some cached) => .ok (some cached)
    | .ok none =>
      if env.isMariaReady && env.mariaPool then
        match env.dbQuery variants with
        | .error _ => .ok none
        | .ok [] => .ok none
        | .ok (row :: _) =>
          let result := rowToRating row
          match (if env.redis.isRedisReady then
                   setCache env.redis ("goodreads:" ++ cleanIsbn) result (86400 * 90)
                 else .ok []) with
          | .error _ => .ok none
          | .ok _ => .ok (some result)
      else .ok none

/-- The pure outcome of the MariaDB leg of `searchGoodreadsDB`. -/
def dbLookup (env : GREnv) (variants : List String) : Option GoodreadsRating :=
  if env.isMariaReady && env.mariaPool then
    match env.dbQuery variants with
    | .ok (row :: _) => some (rowToRating row)
    | _ => none
  else none

/-! ### Per-book resolution (the closure inside `app.post('/api/scan')`) -/

/-- Expression `googleBook?.isbn || openLibBook?.isbn`. -/
def bookIsbnOf (googleBook openLibBook : Option ProviderRecord) : Option String :=
  jsOrStrOpt (googleBook.bind ProviderRecord.isbn) (openLibBook.bind ProviderRecord.isbn)

/-- The tail of the per-book closure: merge, cache the merged record
when one exists, and return it. -/
def resolveAfterRating (ctx : CacheCtx MergedBook) (cacheKey : String)
    (googleBook openLibBook : Option ProviderRecord) (title author : String)
    (goodreadsRating : Option GoodreadsRating) : Except String (Option MergedBook) :=
  match mergeBookData googleBook openLibBook goodreadsRating title author with
  | some merged =>
    match setCache ctx cacheKey merged 2592000 with
    | .error e => .error e
    | .ok _ => .ok (some merged)
  | none => .ok none

/-- The body of the per-book closure in `/api/scan` (its surrounding
`try/catch` would convert any exception into `null`; the theorems show
none arises): check the merged-book cache, else take the adapters'
results, derive an identifier, consult `searchGoodreadsDB`, merge and
cache.  The two adapter calls are pure inputs here — the claims under
verification do not concern their transport. -/
def resolveBook (ctx : CacheCtx MergedBook) (genv : GREnv)
    (googleBook openLibBook : Option ProviderRecord)
    (title author : String) : Except String (Option MergedBook) :=
  let cacheKey := "book:" ++ strToLower title ++ ":" ++ strToLower author
  match getFromCache ctx cacheKey with
  | .error e => .error e
  | .ok (some cached) => .ok (some cached)
  | .ok none =>
    let isbn := bookIsbnOf googleBook openLibBook
    match (if jsTruthyS isbn then searchGoodreadsDB genv (isbn.getD "") else .ok none) with
    | .error e => .error e
    | .ok goodreadsRating =>
      resolveAfterRating ctx cacheKey googleBook openLibBook title author goodreadsRating

/-! ### Batch endpoint outcome (`/api/scan` lines 753–787) -/

/-- The HTTP status `/api/scan` answers once the per-book results are
in: 404 when no book in the batch resolved, else 200. -/
def scanStatus (bookResults : List (Option MergedBook)) : Nat :=
  if (bookResults.filterMap id).isEmpty then 404 else 200

/-- The comparator `(a, b) => b.rating - a.rating || b.ratingsCount - a.ratingsCount`
as the "may precede" relation: `cmp(a, b) <= 0`. -/
def bookRank (a b : MergedBook) : Prop :=
  b.rating < a.rating ∨ (a.rating = b.rating ∧ b.ratingsCount ≤ a.ratingsCount)

instance : DecidableRel bookRank := fun a b =>
  inferInstanceAs (Decidable (b.rating < a.rating ∨
    (a.rating = b.rating ∧ b.ratingsCount ≤ a.ratingsCount)))

instance : IsTotal MergedBook bookRank where
  total a b := by
    unfold bookRank
    rcases lt_trichotomy a.rating b.rating with h | h | h
    · exact Or.inr (Or.inl h)
    · rcases Nat.le_total b.ratingsCount a.ratingsCount with hc | hc
      · exact Or.inl (Or.inr ⟨h, hc⟩)
      · exact Or.inr (Or.inr ⟨h.symm, hc⟩)
    · exact Or.inl (Or.inl h)

instance : IsTrans MergedBook bookRank where
  trans a b c hab hbc := by
    unfold bookRank at *
    rcases hab with h1 | ⟨e1, c1⟩ <;> rcases hbc with h2 | ⟨e2, c2⟩
    · exact Or.inl (h2.trans h1)
    · exact Or.inl (e2 ▸ h1)
    · exact Or.inl (e1 ▸ h2)
    · exact Or.inr ⟨e1.trans e2, c2.trans c1⟩

/-- The `validBooks.sort(...)` ranking, modelled as a stable sort under
`bookRank` (JS `Array.prototype.sort` is stable and the comparator is
consistent). -/
def rankBooks (l : List MergedBook) : List MergedBook :=
  List.insertionSort bookRank l

/-- Filtering the unresolved books and ranking the rest, as the endpoint
does before responding. -/
def scanValidBooks (bookResults : List (Option MergedBook)) : List MergedBook :=
  rankBooks (bookResults.filterMap id)

/-! ### Reading-list matcher (`checkReadingList`) -/

/-- The local `normalizeString` helper: lower-case, trim, strip
non-word/non-space characters (JS `\w` = ASCII letters, digits, `_`). -/
def normalizeString (str : String) : String :=
  if str = "" then ""
  else String.mk ((strTrim (strToLower str)).data.filter fun c =>
    c.isAlphanum || c == '_' || c.isWhitespace)

/-- Helper `normalizeString` applied to a nullable column (`if (!str) return ''`). -/
def normalizeStringOpt (str : Option String) : String :=
  match str with
  | none => ""
  | some s => normalizeString s

/-- The per-entry test of the `checkReadingList` loop: ISBN rule first,
then the title+author rule; `none` when the entry matches by neither. -/
def matchEntry (book : MergedBook) (listItem : ReadingListEntry) : Option MatchInfo :=
  let bookTitle := normalizeString book.title
  let bookAuthor := normalizeString book.author
  let bookIsbn := book.isbn.map stripNonDigits
  let listTitle := normalizeStringOpt listItem.title
  let listAuthor := normalizeStringOpt listItem.author
  let listIsbn := listItem.isbn.map stripNonDigits
  let listIsbn13 := listItem.isbn13.map stripNonDigits
  if jsTruthyS bookIsbn && (bookIsbn == listIsbn || bookIsbn == listIsbn13) then
    some ⟨"isbn", listItem.exclusive_shelf, listItem.my_rating,
          listItem.date_read, listItem.date_added⟩
  else if (!(bookTitle == "") && !(listTitle == "") && bookTitle == listTitle) &&
          (!(bookAuthor == "") && !(listAuthor == "") &&
           (bookAuthor == listAuthor || strIncludes bookAuthor listAuthor ||
            strIncludes listAuthor bookAuthor)) then
    some ⟨"title-author", listItem.exclusive_shelf, listItem.my_rating,
          listItem.date_read, listItem.date_added⟩
  else none

/-- Function `checkReadingList` from `server.js`: first matching entry wins;
`null` when the list is empty or no entry matches. -/
def checkReadingList (book : MergedBook) : List ReadingListEntry → Option MatchInfo
  | [] => none
  | listItem :: rest =>
    match matchEntry book listItem with
    | some info => some info
    | none => checkReadingList book rest

/-! ### Spec-side model of the rating-cache lookup order (for comparison) -/

/-- Modelled from the spec: the variant order the spec prescribes for
the rating cache lookup — "the ISBN-13 form, then the ISBN-10 form"
(each form included when it exists). -/
def specOrderVariants (cleanIsbn : String) : List String :=
  (if cleanIsbn.data.length = 13 then [cleanIsbn] else (isbn10to13 cleanIsbn).toList) ++
  (if cleanIsbn.data.length = 10 then [cleanIsbn] else (isbn13to10 cleanIsbn).toList)

/-- Modelled from the spec: the rating cache consulted in the spec's
variant order. -/
def specRatingCacheLookup (env : GREnv) (isbn : String) :
    Except String (Option GoodreadsRating) :=
  grCacheLookup env.redis (specOrderVariants (cleanIsbnStr isbn))

/-! ### Concrete sample data used by the claims' examples -/

/-- A Google Books record rated 4.0 with 50 ratings. -/
def sampleGoogle : ProviderRecord :=
  { title := "The Great Gatsby"
    author := "F. Scott Fitzgerald"
    rating := 4
    ratingsCount := 50
    description := "A portrait of the Jazz Age."
    thumbnail := some "https://books.google.com/thumb.jpg"
    isbn := some "9780306406157"
    infoLink := some "https://books.google.com/info"
    publishYear := some 1925
    source := "google" }

/-- An Open Library record rated 3.0 with 10 ratings. -/
def sampleOpenLib : ProviderRecord :=
  { title := "The Great Gatsby"
    author := "F. Scott Fitzgerald"
    rating := 3
    ratingsCount := 10
    description := ""
    thumbnail := none
    isbn := none
    infoLink := none
    publishYear := some 1925
    source := "openlibrary" }

/-- The rational 4.5 (kernel-computable form). -/
def ratFourHalf : Rat := ⟨9, 2, by decide, by decide⟩

/-- The rational 3.5. -/
def ratThreeHalf : Rat := ⟨7, 2, by decide, by decide⟩

/-- The rational 4.2. -/
def ratFourTwo : Rat := ⟨21, 5, by decide, by decide⟩

/-- The rational 3.9. -/
def ratThreeNine : Rat := ⟨39, 10, by decide, by decide⟩

/-- A Goodreads rating-store hit of 4.5 stars over 900 ratings. -/
def sampleGoodreads : GoodreadsRating := ⟨ratFourHalf, 900, "goodreads"⟩

/-- A minimal merged book carrying only the two ranking keys. -/
def rankedBook (r : Rat) (n : Nat) : MergedBook :=
  { title := "", author := "", rating := r, ratingsCount := n, ratingSource := ""
    description := "", thumbnail := none, infoLink := none, isbn := none
    publishYear := none, goodreadsUrl := "", amazonUrl := "", sources := [] }

/-- A resolved book whose title carries a typo but whose ISBN is known. -/
def bookTypoTitle : MergedBook :=
  { rankedBook 4 100 with
    title := "The Grat Gatsby", author := "F. Scott Fitzgerald"
    isbn := some "978-0306406157" }

/-- A reading-list entry whose `isbn13` matches `bookTypoTitle` after
stripping, while its title differs. -/
def entryIsbnMatch : ReadingListEntry :=
  { title := some "The Great Gatsby", author := some "F. Scott Fitzgerald"
    isbn := some "0-306-40615-2", isbn13 := some "9780306406157"
    exclusive_shelf := some "read", my_rating := some 5
    date_read := some "2020/01/01", date_added := some "2019/12/01" }

/-- A resolved book without an ISBN. -/
def bookNoIsbn : MergedBook :=
  { rankedBook 4 100 with title := "Harry Potter", author := "J.K. Rowling" }

/-- A reading-list entry with no identifiers whose normalized title
equals the book's and whose author is a substring of the book's. -/
def entryTitleAuthor : ReadingListEntry :=
  { title := some "harry potter", author := some "Rowling"
    isbn := none, isbn13 := none
    exclusive_shelf := some "to-read", my_rating := none
    date_read := none, date_added := some "2021/05/05" }

/-- A resolved book matching no entry. -/
def bookNoMatch : MergedBook :=
  { rankedBook 4 100 with title := "Moby Dick", author := "Herman Melville" }

/-- A rating cached under the ISBN-13 key of the sample identifier. -/
def ratingA : GoodreadsRating := ⟨ratThreeHalf, 1200, "goodreads"⟩

/-- A different rating cached under the ISBN-10 key. -/
def ratingB : GoodreadsRating := ⟨2, 5, "goodreads"⟩

/-- A Redis client holding `ratingA` under the ISBN-13 key and
`ratingB` under the ISBN-10 key of the same identifier. -/
def variantClient : RedisClient GoodreadsRating :=
  ⟨fun key =>
      if key = "goodreads:9780306406157" then .ok (some ratingA)
      else if key = "goodreads:0306406152" then .ok (some ratingB)
      else .ok none,
    fun _ _ _ => .ok ()⟩

/-- An environment with a ready Redis holding both variant keys and no
MariaDB. -/
def variantEnv : GREnv :=
  ⟨⟨true, some variantClient⟩, false, false, fun _ => .ok []⟩

/-! ## Theorems -/

/-! ### Shared helper lemmas -/

theorem getFromCache_total {α : Type} (ctx : CacheCtx α) (key : String) :
    ∃ v, getFromCache ctx key = .ok v := by
  rcases ctx with ⟨ready, client⟩
  cases ready
  · exact ⟨none, rfl⟩
  · cases client with
    | none => exact ⟨none, rfl⟩
    | some c =>
      cases hg : c.get key with
      | ok data => exact ⟨data, by simp [getFromCache, hg]⟩
      | error e => exact ⟨none, by simp [getFromCache, hg]⟩

theorem setCache_total {α : Type} (ctx : CacheCtx α) (key : String) (value : α)
    (ttl : Nat) : ∃ w, setCache ctx key value ttl = .ok w := by
  rcases ctx with ⟨ready, client⟩
  cases ready
  · exact ⟨[], rfl⟩
  · cases client with
    | none => exact ⟨[], rfl⟩
    | some c =>
      cases hs : c.setEx key ttl value with
      | ok u => exact ⟨[(key, ttl, value)], by simp [setCache, hs]⟩
      | error e => exact ⟨[], by simp [setCache, hs]⟩

/-! ### C2 -/

/-- C2: when both bibliographic adapters return `null`, `mergeBookData`
returns `null` (no placeholder record), and the scan endpoint answers
404 when no book in the batch resolved. -/
theorem notFound_on_empty_sources :
    (∀ (gr : Option GoodreadsRating) (t a : String),
        mergeBookData none none gr t a = none) ∧
    (∀ bookResults : List (Option MergedBook),
        (∀ r ∈ bookResults, r = none) → scanStatus bookResults = 404) := by
  refine ⟨fun gr t a => rfl, fun bookResults h => ?_⟩
  unfold scanStatus
  have h0 : List.filterMap id bookResults = [] := List.filterMap_eq_nil_iff.mpr h
  rw [h0]
  rfl

/-- Witness for C2 at a concrete all-unresolved batch. -/
theorem notFound_on_empty_sources_witness :
    scanStatus [none, none, none] = 404 :=
  notFound_on_empty_sources.2 [none, none, none] (by simp)

/-! ### C5 -/

/-- C5 counterexample: the spec's first checksum example is wrong on
the code — `isbn10to13 "0306406152"` is `"9780306406157"` (the real
ISBN-13 of that book), not `"9780306406153"`. -/
theorem isbn_checksum_example_counterexample :
    isbn10to13 "0306406152" ≠ some "9780306406153" := by decide

/-- C5 (amended): `isbn10to13 "0306406152" = "9780306406157"`, and
`isbn13to10` maps both `"9780306406153"` (check digit ignored) and
`"9780306406157"` back to `"0306406152"`. -/
theorem isbn_checksum_examples_amended :
    isbn10to13 "0306406152" = some "9780306406157" ∧
    isbn13to10 "9780306406153" = some "0306406152" ∧
    isbn13to10 "9780306406157" = some "0306406152" := by
  refine ⟨by decide, by decide, by decide⟩

/-! ### C6 -/

/-- C6 counterexample: an input of accepted length and prefix whose base
contains a non-digit is not rejected — the `NaN` checksum is rendered
into the output string. -/
theorem isbn13to10_nondigit_counterexample :
    isbn13to10 "978a123456789" = some "a12345678NaN" := by decide

/-- C6 (amended): `isbn13to10` returns `null` for every input whose
length is not 13 or that does not start with `"978"` (in particular for
`"9791234567896"`), but an accepted-shape input with a non-digit among
characters 3–11 yields a `NaN`-bearing string instead of `null`. -/
theorem isbn13to10_rejects_amended :
    (∀ s : String, s.data.length ≠ 13 → isbn13to10 s = none) ∧
    (∀ s : String, s.data.take 3 ≠ ['9', '7', '8'] → isbn13to10 s = none) ∧
    isbn13to10 "9791234567896" = none ∧
    isbn13to10 "978a123456789" = some "a12345678NaN" := by
  refine ⟨?_, ?_, by decide, by decide⟩
  · intro s h; unfold isbn13to10; rw [if_neg h]
  · intro s h
    unfold isbn13to10
    by_cases hl : s.data.length = 13
    · rw [if_pos hl, if_neg h]
    · rw [if_neg hl]

/-- Witness for C6 at concrete rejected inputs. -/
theorem isbn13to10_rejects_amended_witness :
    isbn13to10 "12345" = none ∧ isbn13to10 "1231234567896" = none :=
  ⟨isbn13to10_rejects_amended.1 "12345" (by decide),
   isbn13to10_rejects_amended.2.1 "1231234567896" (by decide)⟩

/-! ### C10 -/

/-- C10: neither codec function reads its input's own check digit — two
accepted inputs differing only in the final character convert alike, so
an identifier with a wrong check digit (here `"0306406159"`) is silently
converted rather than rejected. -/
theorem codec_ignores_check_digit :
    (∀ s t : String, s.data.length = 10 → t.data.length = 10 →
        s.data.take 9 = t.data.take 9 → isbn10to13 s = isbn10to13 t) ∧
    (∀ s t : String, s.data.length = 13 → t.data.length = 13 →
        s.data.take 12 = t.data.take 12 → isbn13to10 s = isbn13to10 t) ∧
    isbn10to13 "0306406159" = isbn10to13 "0306406152" ∧
    isValidISBN10 "0306406159" = false ∧
    isbn10to13 "0306406159" = some "9780306406157" := by
  refine ⟨?_, ?_, by decide, by decide, by decide⟩
  · intro s t hs ht h9
    unfold isbn10to13
    rw [hs, ht, h9]
  · intro s t hs ht h12
    have h3 : s.data.take 3 = t.data.take 3 := by
      have h := congrArg (List.take 3) h12
      rwa [List.take_take, List.take_take] at h
    have h9 : (s.data.drop 3).take 9 = (t.data.drop 3).take 9 := by
      have h := congrArg (List.drop 3) h12
      rwa [show (12 : Nat) = 3 + 9 from rfl, ← List.take_drop, ← List.take_drop] at h
    unfold isbn13to10
    rw [hs, ht, h3, h9]

/-- Witness for C10 at a concrete pair differing only in the last character. -/
theorem codec_ignores_check_digit_witness :
    isbn10to13 "030640615X" = isbn10to13 "0306406152" :=
  codec_ignores_check_digit.1 "030640615X" "0306406152" (by decide) (by decide) (by decide)

/-! ### C1 -/

theorem str_append_ne_empty (p q : String) (hp : p ≠ "") : p ++ q ≠ "" := by
  intro h
  apply hp
  have hd := congrArg String.data h
  rw [String.data_append] at hd
  exact String.ext (List.append_eq_nil.mp hd).1

theorem mergeBookData_sel (googleBook openLibBook : Option ProviderRecord)
    (gr : Option GoodreadsRating) (t a : String) (m : MergedBook)
    (h : mergeBookData googleBook openLibBook gr t a = some m) :
    m.rating = (pickRating gr googleBook openLibBook).1 ∧
    m.ratingsCount = (pickRating gr googleBook openLibBook).2.1 ∧
    m.ratingSource = (pickRating gr googleBook openLibBook).2.2 := by
  cases googleBook with
  | none =>
    cases openLibBook with
    | none => simp [mergeBookData] at h
    | some ol =>
      simp only [mergeBookData, Option.some.injEq] at h
      subst h; exact ⟨rfl, rfl, rfl⟩
  | some gb =>
    cases openLibBook with
    | none =>
      simp only [mergeBookData, Option.some.injEq] at h
      subst h; exact ⟨rfl, rfl, rfl⟩
    | some ol =>
      simp only [mergeBookData, Option.some.injEq] at h
      subst h; exact ⟨rfl, rfl, rfl⟩

theorem pickRating_goodreads (gr : GoodreadsRating) (g o : Option ProviderRecord)
    (h : 0 < gr.rating) :
    pickRating (some gr) g o =
      (gr.rating, gr.ratingsCount,
       "Goodreads (" ++ toLocaleString gr.ratingsCount ++ " ratings)") := by
  simp [pickRating, h]

theorem pickRating_of_grNeg (gr : Option GoodreadsRating) (g o : Option ProviderRecord)
    (h : grPos gr = false) : pickRating gr g o = pickRatingGB g o := by
  cases gr with
  | none => rfl
  | some r =>
    simp only [grPos, decide_eq_false_iff_not] at h
    simp [pickRating, h]

theorem pickRatingGB_google (g : ProviderRecord) (o : Option ProviderRecord)
    (h : 0 < g.rating) :
    pickRatingGB (some g) o =
      (g.rating, g.ratingsCount,
       "Google Books (" ++ toLocaleString g.ratingsCount ++ " reviews)") := by
  simp [pickRatingGB, h]

theorem pickRatingGB_of_neg (g o : Option ProviderRecord) (h : recPos g = false) :
    pickRatingGB g o = pickRatingOL o := by
  cases g with
  | none => rfl
  | some r =>
    simp only [recPos, decide_eq_false_iff_not] at h
    simp [pickRatingGB, h]

theorem pickRatingOL_openlib (o : ProviderRecord) (h : 0 < o.rating) :
    pickRatingOL (some o) =
      (o.rating, o.ratingsCount,
       "Open Library (" ++ toLocaleString o.ratingsCount ++ " reviews)") := by
  simp [pickRatingOL, h]

theorem pickRatingOL_of_neg (o : Option ProviderRecord) (h : recPos o = false) :
    pickRatingOL o = (0, 0, "No ratings available") := by
  cases o with
  | none => rfl
  | some r =>
    simp only [recPos, decide_eq_false_iff_not] at h
    simp [pickRatingOL, h]

theorem pickRating_label_ne_empty (gr : Option GoodreadsRating)
    (g o : Option ProviderRecord) : (pickRating gr g o).2.2 ≠ "" := by
  have hOL : ∀ o' : Option ProviderRecord, (pickRatingOL o').2.2 ≠ "" := by
    intro o'
    rcases o' with _ | r
    · decide
    · by_cases hr : 0 < r.rating
      · simp only [pickRatingOL, if_pos hr]
        exact str_append_ne_empty _ _ (str_append_ne_empty _ _ (by decide))
      · simp only [pickRatingOL, if_neg hr]; decide
  have hGB : ∀ (g' o' : Option ProviderRecord), (pickRatingGB g' o').2.2 ≠ "" := by
    intro g' o'
    rcases g' with _ | r
    · exact hOL o'
    · by_cases hr : 0 < r.rating
      · simp only [pickRatingGB, if_pos hr]
        exact str_append_ne_empty _ _ (str_append_ne_empty _ _ (by decide))
      · simp only [pickRatingGB, if_neg hr]; exact hOL o'
  rcases gr with _ | r
  · exact hGB g o
  · by_cases hr : 0 < r.rating
    · simp only [pickRating, if_pos hr]
      exact str_append_ne_empty _ _ (str_append_ne_empty _ _ (by decide))
    · simp only [pickRating, if_neg hr]; exact hGB g o

/-- C1: `mergeBookData` selects rating, ratingsCount and ratingSource by
the fixed priority Goodreads, then Google Books, then Open Library,
taking the first with a positive rating and labelling the source with
its count; with no positive rating it sets `0/0/"No ratings available"`;
every returned book with a positive rating carries a non-empty
`ratingSource` and a ratingsCount `≥ 0`; and the spec's 4.5/900 vs
4.0/50 vs 3.0/10 example merges to 4.5 from Goodreads with 900. -/
theorem mergeBookData_rating_policy :
    (∀ g o gr t a m r, mergeBookData g o gr t a = some m → gr = some r → 0 < r.rating →
        m.rating = r.rating ∧ m.ratingsCount = r.ratingsCount ∧
        m.ratingSource = "Goodreads (" ++ toLocaleString r.ratingsCount ++ " ratings)") ∧
    (∀ g o gr t a m r, mergeBookData g o gr t a = some m → grPos gr = false →
        g = some r → 0 < r.rating →
        m.rating = r.rating ∧ m.ratingsCount = r.ratingsCount ∧
        m.ratingSource = "Google Books (" ++ toLocaleString r.ratingsCount ++ " reviews)") ∧
    (∀ g o gr t a m r, mergeBookData g o gr t a = some m → grPos gr = false →
        recPos g = false → o = some r → 0 < r.rating →
        m.rating = r.rating ∧ m.ratingsCount = r.ratingsCount ∧
        m.ratingSource = "Open Library (" ++ toLocaleString r.ratingsCount ++ " reviews)") ∧
    (∀ g o gr t a m, mergeBookData g o gr t a = some m → grPos gr = false →
        recPos g = false → recPos o = false →
        m.rating = 0 ∧ m.ratingsCount = 0 ∧ m.ratingSource = "No ratings available") ∧
    (∀ g o gr t a m, mergeBookData g o gr t a = some m → 0 < m.rating →
        m.ratingSource ≠ "" ∧ 0 ≤ m.ratingsCount) ∧
    (mergeBookData (some sampleGoogle) (some sampleOpenLib) (some sampleGoodreads)
        "The Great Gatsby" "F. Scott Fitzgerald").map
      (fun m => (m.rating, m.ratingsCount, m.ratingSource)) =
      some (ratFourHalf, 900, "Goodreads (900 ratings)") := by
  refine ⟨?_, ?_, ?_, ?_, ?_, by decide⟩
  · intro g o gr t a m r h hgr hr
    subst hgr
    obtain ⟨h1, h2, h3⟩ := mergeBookData_sel g o (some r) t a m h
    rw [pickRating_goodreads r g o hr] at h1 h2 h3
    exact ⟨h1, h2, h3⟩
  · intro g o gr t a m r h hneg hg hr
    subst hg
    obtain ⟨h1, h2, h3⟩ := mergeBookData_sel (some r) o gr t a m h
    rw [pickRating_of_grNeg gr (some r) o hneg, pickRatingGB_google r o hr] at h1 h2 h3
    exact ⟨h1, h2, h3⟩
  · intro g o gr t a m r h hneg hgneg ho hr
    subst ho
    obtain ⟨h1, h2, h3⟩ := mergeBookData_sel g (some r) gr t a m h
    rw [pickRating_of_grNeg gr g (some r) hneg, pickRatingGB_of_neg g (some r) hgneg,
        pickRatingOL_openlib r hr] at h1 h2 h3
    exact ⟨h1, h2, h3⟩
  · intro g o gr t a m h hneg hgneg honeg
    obtain ⟨h1, h2, h3⟩ := mergeBookData_sel g o gr t a m h
    rw [pickRating_of_grNeg gr g o hneg, pickRatingGB_of_neg g o hgneg,
        pickRatingOL_of_neg o honeg] at h1 h2 h3
    exact ⟨h1, h2, h3⟩
  · intro g o gr t a m h hpos
    obtain ⟨h1, h2, h3⟩ := mergeBookData_sel g o gr t a m h
    rw [h3]
    exact ⟨pickRating_label_ne_empty gr g o, Nat.zero_le _⟩

/-- Witness for C1 at the spec's merge-priority example. -/
theorem mergeBookData_rating_policy_witness :
    ∃ m, mergeBookData (some sampleGoogle) (some sampleOpenLib) (some sampleGoodreads)
        "The Great Gatsby" "F. Scott Fitzgerald" = some m ∧
      m.rating = ratFourHalf ∧ m.ratingsCount = 900 ∧
      m.ratingSource = "Goodreads (900 ratings)" := by
  cases hm : mergeBookData (some sampleGoogle) (some sampleOpenLib) (some sampleGoodreads)
      "The Great Gatsby" "F. Scott Fitzgerald" with
  | none => exact absurd hm (by simp [mergeBookData])
  | some m =>
    obtain ⟨h1, h2, h3⟩ :=
      mergeBookData_rating_policy.1 _ _ _ _ _ m sampleGoodreads hm rfl (by decide)
    exact ⟨m, rfl, h1, h2, h3.trans (by decide)⟩

/-! ### C8 -/

/-- C8: `checkReadingList` matches by stripped-identifier equality first
(regardless of the title), else by normalized exact-title plus
equal-or-substring author, and returns `null` exactly when no entry
matches by either rule; with the spec's three exemplar situations. -/
theorem checkReadingList_rules :
    (∀ (book : MergedBook) (list : List ReadingListEntry),
        checkReadingList book list = none ↔ ∀ e ∈ list, matchEntry book e = none) ∧
    checkReadingList bookTypoTitle [entryIsbnMatch] =
      some ⟨"isbn", some "read", some 5, some "2020/01/01", some "2019/12/01"⟩ ∧
    checkReadingList bookNoIsbn [entryTitleAuthor] =
      some ⟨"title-author", some "to-read", none, none, some "2021/05/05"⟩ ∧
    checkReadingList bookNoMatch [entryIsbnMatch, entryTitleAuthor] = none := by
  refine ⟨?_, by decide, by decide, by decide⟩
  intro book list
  induction list with
  | nil => simp [checkReadingList]
  | cons e rest ih =>
    unfold checkReadingList
    cases hm : matchEntry book e with
    | some info =>
      constructor
      · exact fun hc => absurd hc (by simp)
      · intro hall
        have hx := hall e (List.mem_cons_self e rest)
        rw [hm] at hx
        exact hx
    | none =>
      rw [ih]
      constructor
      · intro hall e' he'
        rcases List.mem_cons.mp he' with rfl | hmem
        · exact hm
        · exact hall e' hmem
      · intro hall e' he'
        exact hall e' (List.mem_cons_of_mem e he')

/-! ### C9 -/

/-- C9: the batch response is sorted by rating descending with ties
broken by ratingsCount descending, it is a permutation of the resolved
books, and the spec's 4.2/4.2/3.9 × 500/10/999 example ranks as
`[4.2/500, 4.2/10, 3.9/999]`. -/
theorem scan_ranking :
    (∀ bookResults : List (Option MergedBook),
        List.Sorted bookRank (scanValidBooks bookResults)) ∧
    (∀ bookResults : List (Option MergedBook),
        (scanValidBooks bookResults).Perm (bookResults.filterMap id)) ∧
    scanValidBooks [some (rankedBook ratThreeNine 999), some (rankedBook ratFourTwo 10),
        some (rankedBook ratFourTwo 500)] =
      [rankedBook ratFourTwo 500, rankedBook ratFourTwo 10, rankedBook ratThreeNine 999] := by
  refine ⟨?_, ?_, by decide⟩
  · intro bookResults
    exact List.sorted_insertionSort bookRank _
  · intro bookResults
    exact List.perm_insertionSort bookRank _

/-! ### C7 (with helper lemmas shared by C3) -/

theorem grCacheLookup_eq_findSome (ctx : CacheCtx GoodreadsRating) (vs : List String) :
    grCacheLookup ctx vs = .ok (vs.findSome? fun v => pureGet ctx ("goodreads:" ++ v)) := by
  induction vs with
  | nil => rfl
  | cons v vs ih =>
    obtain ⟨val, hval⟩ := getFromCache_total ctx ("goodreads:" ++ v)
    unfold grCacheLookup
    rw [hval]
    cases val with
    | some r =>
      rw [List.findSome?_cons_of_isSome]
      · simp [pureGet, hval]
      · simp [pureGet, hval]
    | none =>
      rw [List.findSome?_cons_of_isNone]
      · rw [ih]
      · simp [pureGet, hval]

/-- The pure characterization of `searchGoodreadsDB`: first cache hit in
variant order when Redis is up, else the DB leg. -/
theorem searchGoodreadsDB_eq (env : GREnv) (isbn : String) (hi : isbn ≠ "") :
    searchGoodreadsDB env isbn =
      .ok (match (if env.redis.isRedisReady then
                    (isbnVariants (cleanIsbnStr isbn)).findSome?
                      (fun v => pureGet env.redis ("goodreads:" ++ v))
                  else none) with
           | some cached => some cached
           | none => dbLookup env (isbnVariants (cleanIsbnStr isbn))) := by
  unfold searchGoodreadsDB
  rw [if_neg hi]
  dsimp only
  rw [grCacheLookup_eq_findSome]
  by_cases hr : env.redis.isRedisReady
  · rw [if_pos hr, if_pos hr]
    cases hf : (isbnVariants (cleanIsbnStr isbn)).findSome?
        (fun v => pureGet env.redis ("goodreads:" ++ v)) with
    | some cached => rfl
    | none =>
      dsimp only
      simp only [dbLookup]
      by_cases hm : env.isMariaReady && env.mariaPool
      · rw [if_pos hm, if_pos hm]
        cases hdb : env.dbQuery (isbnVariants (cleanIsbnStr isbn)) with
        | error e => rfl
        | ok rows =>
          cases rows with
          | nil => rfl
          | cons row rest =>
            dsimp only
            obtain ⟨w, hw⟩ := setCache_total env.redis
              ("goodreads:" ++ cleanIsbnStr isbn) (rowToRating row) (86400 * 90)
            rw [if_pos hr, hw]
      · rw [if_neg hm, if_neg hm]
  · rw [if_neg hr, if_neg hr]
    dsimp only
    simp only [dbLookup]
    by_cases hm : env.isMariaReady && env.mariaPool
    · rw [if_pos hm, if_pos hm]
      cases hdb : env.dbQuery (isbnVariants (cleanIsbnStr isbn)) with
      | error e => rfl
      | ok rows =>
        cases rows with
        | nil => rfl
        | cons row rest =>
          dsimp only
          rw [if_neg hr]
    · rw [if_neg hm, if_neg hm]

/-- C7 counterexample: for a rating lookup keyed by the ISBN-10 form,
the code probes the ISBN-10 key first and returns its value, whereas
the spec's "ISBN-13 form first" order would return the value cached
under the ISBN-13 key. -/
theorem goodreads_variant_order_counterexample :
    searchGoodreadsDB variantEnv "0306406152" = .ok (some ratingB) ∧
    specRatingCacheLookup variantEnv "0306406152" = .ok (some ratingA) ∧
    ratingA ≠ ratingB := by
  refine ⟨rfl, rfl, by decide⟩

/-- C7 (amended): the rating-cache lookup in `searchGoodreadsDB` tries
every identifier variant in turn — the queried identifier's own form
first, then its cross-format conversion — and falls through to the
rating store only after all variants have missed. -/
theorem goodreads_rating_cache_variants :
    (∀ (env : GREnv) (isbn : String), isbn ≠ "" →
        searchGoodreadsDB env isbn =
          .ok (match (if env.redis.isRedisReady then
                        (isbnVariants (cleanIsbnStr isbn)).findSome?
                          (fun v => pureGet env.redis ("goodreads:" ++ v))
                      else none) with
               | some cached => some cached
               | none => dbLookup env (isbnVariants (cleanIsbnStr isbn)))) ∧
    (∀ c : String, c.data.length = 13 → isbnVariants c = c :: (isbn13to10 c).toList) ∧
    (∀ c : String, c.data.length = 10 → isbnVariants c = c :: (isbn10to13 c).toList) := by
  refine ⟨searchGoodreadsDB_eq, ?_, ?_⟩
  · intro c hc
    unfold isbnVariants
    rw [if_pos hc]
  · intro c hc
    unfold isbnVariants
    rw [if_neg (by omega : ¬c.data.length = 13), if_pos hc]

/-- Witness for C7 at the concrete two-variant environment. -/
theorem goodreads_rating_cache_variants_witness :
    searchGoodreadsDB variantEnv "0306406152" =
      .ok (match (if variantEnv.redis.isRedisReady then
                    (isbnVariants (cleanIsbnStr "0306406152")).findSome?
                      (fun v => pureGet variantEnv.redis ("goodreads:" ++ v))
                  else none) with
           | some cached => some cached
           | none => dbLookup variantEnv (isbnVariants (cleanIsbnStr "0306406152"))) :=
  goodreads_rating_cache_variants.1 variantEnv "0306406152" (by decide)

/-! ### C3 -/

theorem resolveAfterRating_badCtx (cacheKey : String) (g o : Option ProviderRecord)
    (t a : String) (gr : Option GoodreadsRating) :
    resolveAfterRating (badCtx MergedBook) cacheKey g o t a gr =
      .ok (mergeBookData g o gr t a) := by
  unfold resolveAfterRating
  cases hm : mergeBookData g o gr t a with
  | some m => rfl
  | none => rfl

theorem findSome?_pureGet_badCtx (vs : List String) :
    vs.findSome? (fun v => pureGet (badCtx GoodreadsRating) ("goodreads:" ++ v)) = none := by
  induction vs with
  | nil => rfl
  | cons v vs ih =>
    rw [List.findSome?_cons_of_isNone _ (by rfl)]
    exact ih

theorem searchGoodreadsDB_badCtx (mr mp : Bool)
    (db : List String → Except String (List GRRow)) (i : String) (hi : i ≠ "") :
    searchGoodreadsDB ⟨badCtx GoodreadsRating, mr, mp, db⟩ i =
      .ok (dbLookup ⟨badCtx GoodreadsRating, mr, mp, db⟩ (isbnVariants (cleanIsbnStr i))) := by
  rw [searchGoodreadsDB_eq _ _ hi]
  dsimp only
  rw [if_pos (show (badCtx GoodreadsRating).isRedisReady = true from rfl),
      findSome?_pureGet_badCtx]

/-- C3: the cache fails open — a down readiness flag, an absent client,
or a throwing backend operation makes `getFromCache` return a miss and
`setCache` perform no write; neither ever returns an exception; and a
resolution against an always-throwing cache backend still returns the
live-path merge result instead of failing. -/
theorem cache_fails_open :
    (∀ (α : Type) (ctx : CacheCtx α) (key : String),
        ctx.isRedisReady = false ∨ ctx.redisClient = none →
        getFromCache ctx key = .ok none) ∧
    (∀ (α : Type) (ctx : CacheCtx α) (key : String) (client : RedisClient α) (e : String),
        ctx.redisClient = some client → client.get key = .error e →
        getFromCache ctx key = .ok none) ∧
    (∀ (α : Type) (ctx : CacheCtx α) (key : String),
        ∃ v, getFromCache ctx key = .ok v) ∧
    (∀ (α : Type) (ctx : CacheCtx α) (key : String) (value : α) (ttl : Nat),
        ctx.isRedisReady = false ∨ ctx.redisClient = none →
        setCache ctx key value ttl = .ok []) ∧
    (∀ (α : Type) (ctx : CacheCtx α) (key : String) (value : α) (ttl : Nat)
        (client : RedisClient α) (e : String),
        ctx.redisClient = some client → client.setEx key ttl value = .error e →
        setCache ctx key value ttl = .ok []) ∧
    (∀ (α : Type) (ctx : CacheCtx α) (key : String) (value : α) (ttl : Nat),
        ∃ w, setCache ctx key value ttl = .ok w) ∧
    (∀ (mr mp : Bool) (db : List String → Except String (List GRRow))
        (googleBook openLibBook : Option ProviderRecord) (title author : String),
        resolveBook (badCtx MergedBook) ⟨badCtx GoodreadsRating, mr, mp, db⟩
            googleBook openLibBook title author =
          .ok (mergeBookData googleBook openLibBook
                (match bookIsbnOf googleBook openLibBook with
                 | some i =>
                   if i = "" then none
                   else dbLookup ⟨badCtx GoodreadsRating, mr, mp, db⟩
                          (isbnVariants (cleanIsbnStr i))
                 | none => none)
                title author)) := by
  refine ⟨?_, ?_, @getFromCache_total, ?_, ?_, @setCache_total, ?_⟩
  · rintro α ⟨ready, client⟩ key (h | h)
    · cases h; rfl
    · cases h
      cases ready
      · rfl
      · rfl
  · rintro α ⟨ready, client⟩ key c e hc he
    cases hc
    cases ready
    · rfl
    · simp [getFromCache, he]
  · rintro α ⟨ready, client⟩ key value ttl (h | h)
    · cases h; rfl
    · cases h
      cases ready
      · rfl
      · rfl
  · rintro α ⟨ready, client⟩ key value ttl c e hc he
    cases hc
    cases ready
    · rfl
    · simp [setCache, he]
  · intro mr mp db g o t a
    unfold resolveBook
    dsimp only
    rw [show getFromCache (badCtx MergedBook)
        ("book:" ++ strToLower t ++ ":" ++ strToLower a) =
        (Except.ok none : Except String (Option MergedBook)) from rfl]
    dsimp only
    cases hb : bookIsbnOf g o with
    | none =>
      dsimp only [jsTruthyS]
      rw [if_neg Bool.false_ne_true]
      dsimp only
      rw [resolveAfterRating_badCtx]
    | some i =>
      by_cases hie : i = ""
      · subst hie
        rw [show jsTruthyS (some "") = false from rfl]
        rw [if_neg Bool.false_ne_true]
        dsimp only
        rw [resolveAfterRating_badCtx, if_pos (show ("" : String) = "" from rfl)]
      · rw [show jsTruthyS (some i) = true from by simp [jsTruthyS, hie]]
        rw [if_pos (show true = true from rfl)]
        simp only [Option.getD_some]
        rw [searchGoodreadsDB_badCtx mr mp db i hie]
        dsimp only
        rw [resolveAfterRating_badCtx, if_neg hie]

/-- Witness for C3 at a concrete unreachable cache and a concrete
resolution. -/
theorem cache_fails_open_witness :
    getFromCache (⟨false, none⟩ : CacheCtx Nat) "k" = .ok none ∧
    setCache (⟨false, none⟩ : CacheCtx Nat) "k" 7 60 = .ok [] ∧
    resolveBook (badCtx MergedBook) ⟨badCtx GoodreadsRating, false, false, fun _ => .ok []⟩
        (some sampleGoogle) (some sampleOpenLib) "The Great Gatsby" "F. Scott Fitzgerald" =
      .ok (mergeBookData (some sampleGoogle) (some sampleOpenLib)
            (match bookIsbnOf (some sampleGoogle) (some sampleOpenLib) with
             | some i =>
               if i = "" then none
               else dbLookup ⟨badCtx GoodreadsRating, false, false, fun _ => .ok []⟩
                      (isbnVariants (cleanIsbnStr i))
             | none => none)
            "The Great Gatsby" "F. Scott Fitzgerald") :=
  ⟨cache_fails_open.1 Nat ⟨false, none⟩ "k" (Or.inl rfl),
   cache_fails_open.2.2.2.1 Nat ⟨false, none⟩ "k" 7 60 (Or.inl rfl),
   cache_fails_open.2.2.2.2.2.2 false false (fun _ => .ok [])
     (some sampleGoogle) (some sampleOpenLib) "The Great Gatsby" "F. Scott Fitzgerald"⟩

/-! ### C4 -/

theorem parseIntChar_natDigit {c : Char} {v : Nat} (h : parseIntChar c = some v) :
    v ≤ 9 ∧ natDigitChar v = c := by
  unfold parseIntChar at h
  split_ifs at h <;>
    first
      | exact Option.noConfusion h
      | (injection h with hv; subst hv; subst_vars; exact ⟨by omega, rfl⟩)

theorem checkCharVal_le {c : Char} {v : Nat} (h : checkCharVal c = some v) :
    v ≤ 10 ∧ (v = 10 → c = 'X') ∧ (v ≤ 9 → natDigitChar v = c) := by
  unfold checkCharVal at h
  split_ifs at h with hx
  · injection h with hv
    subst hv
    exact ⟨Nat.le_refl 10, fun _ => hx, fun h9 => absurd h9 (by omega)⟩
  · obtain ⟨h9, hd⟩ := parseIntChar_natDigit h
    exact ⟨by omega, fun h10 => by omega, fun _ => hd⟩

theorem sumW13_total (cs : List Char) (i : Nat)
    (h : ∀ c ∈ cs, (parseIntChar c).isSome = true) : ∃ n, sumW13 cs i = some n := by
  induction cs generalizing i with
  | nil => exact ⟨0, rfl⟩
  | cons c cs ih =>
    obtain ⟨d, hd⟩ := Option.isSome_iff_exists.mp (h c (List.mem_cons_self c cs))
    obtain ⟨n, hn⟩ := ih (i + 1) (fun c' hc' => h c' (List.mem_cons_of_mem c hc'))
    exact ⟨d * (if i % 2 = 0 then 1 else 3) + n, by simp [sumW13, hd, hn]⟩

theorem sumW10_total (cs : List Char) (w : Nat)
    (h : ∀ c ∈ cs, (parseIntChar c).isSome = true) : ∃ n, sumW10 cs w = some n := by
  induction cs generalizing w with
  | nil => exact ⟨0, rfl⟩
  | cons c cs ih =>
    obtain ⟨d, hd⟩ := Option.isSome_iff_exists.mp (h c (List.mem_cons_self c cs))
    obtain ⟨n, hn⟩ := ih (w - 1) (fun c' hc' => h c' (List.mem_cons_of_mem c hc'))
    exact ⟨d * w + n, by simp [sumW10, hd, hn]⟩

theorem isbn10to13_eq (s : String) (h : s.data.length = 10) (M : Nat)
    (hM : sumW13 ('9' :: '7' :: '8' :: s.data.take 9) 0 = some M) :
    isbn10to13 s = some (String.mk ('9' :: '7' :: '8' :: s.data.take 9 ++
      [natDigitChar ((10 - M % 10) % 10)])) := by
  unfold isbn10to13
  rw [if_pos h]
  dsimp only
  rw [hM]

theorem isbn13to10_eq (t : String) (h : t.data.length = 13)
    (h3 : t.data.take 3 = ['9', '7', '8']) (N : Nat)
    (hN : sumW10 ((t.data.drop 3).take 9) 10 = some N) :
    isbn13to10 t = some (String.mk ((t.data.drop 3).take 9 ++
      [if (11 - N % 11) % 11 = 10 then 'X' else natDigitChar ((11 - N % 11) % 11)])) := by
  unfold isbn13to10
  rw [if_pos h, if_pos h3]
  dsimp only
  rw [hN]

/-- C4: for every valid ISBN-10 string (nine digits plus a correct check
character, `'X'` allowed), converting to ISBN-13 and back returns the
original string. -/
theorem isbn_round_trip (s : String) (h : isValidISBN10 s = true) :
    ∃ t, isbn10to13 s = some t ∧ isbn13to10 t = some s := by
  obtain ⟨l⟩ := s
  unfold isValidISBN10 at h
  rw [Bool.and_eq_true, Bool.and_eq_true] at h
  obtain ⟨⟨hlen0, hdig0⟩, hchk0⟩ := h
  have hlen : l.length = 10 := of_decide_eq_true hlen0
  have hdig : ∀ c ∈ l.take 9, (parseIntChar c).isSome = true := List.all_eq_true.mp hdig0
  obtain ⟨c0, c1, c2, c3, c4, c5, c6, c7, c8, c9, rfl⟩ :
      ∃ c0 c1 c2 c3 c4 c5 c6 c7 c8 c9,
        l = [c0, c1, c2, c3, c4, c5, c6, c7, c8, c9] := by
    rcases l with _ | ⟨c0, l⟩; · simp at hlen
    rcases l with _ | ⟨c1, l⟩; · simp at hlen
    rcases l with _ | ⟨c2, l⟩; · simp at hlen
    rcases l with _ | ⟨c3, l⟩; · simp at hlen
    rcases l with _ | ⟨c4, l⟩; · simp at hlen
    rcases l with _ | ⟨c5, l⟩; · simp at hlen
    rcases l with _ | ⟨c6, l⟩; · simp at hlen
    rcases l with _ | ⟨c7, l⟩; · simp at hlen
    rcases l with _ | ⟨c8, l⟩; · simp at hlen
    rcases l with _ | ⟨c9, l⟩; · simp at hlen
    have hnil : l = [] := by
      refine List.length_eq_zero.mp ?_
      simp only [List.length_cons] at hlen
      omega
    subst hnil
    exact ⟨c0, c1, c2, c3, c4, c5, c6, c7, c8, c9, rfl⟩
  have e0 : (parseIntChar c0).isSome = true := hdig c0 (by simp)
  have e1 : (parseIntChar c1).isSome = true := hdig c1 (by simp)
  have e2 : (parseIntChar c2).isSome = true := hdig c2 (by simp)
  have e3 : (parseIntChar c3).isSome = true := hdig c3 (by simp)
  have e4 : (parseIntChar c4).isSome = true := hdig c4 (by simp)
  have e5 : (parseIntChar c5).isSome = true := hdig c5 (by simp)
  have e6 : (parseIntChar c6).isSome = true := hdig c6 (by simp)
  have e7 : (parseIntChar c7).isSome = true := hdig c7 (by simp)
  have e8 : (parseIntChar c8).isSome = true := hdig c8 (by simp)
  obtain ⟨N, hN⟩ := sumW10_total [c0, c1, c2, c3, c4, c5, c6, c7, c8] 10 (by
    intro c hc
    simp only [List.mem_cons, List.not_mem_nil, or_false] at hc
    rcases hc with rfl | rfl | rfl | rfl | rfl | rfl | rfl | rfl | rfl <;> assumption)
  obtain ⟨M, hM⟩ := sumW13_total ['9', '7', '8', c0, c1, c2, c3, c4, c5, c6, c7, c8] 0 (by
    intro c hc
    simp only [List.mem_cons, List.not_mem_nil, or_false] at hc
    rcases hc with rfl | rfl | rfl | rfl | rfl | rfl | rfl | rfl | rfl | rfl | rfl | rfl <;>
      first | decide | assumption)
  have hchk2 : (match sumW10 [c0, c1, c2, c3, c4, c5, c6, c7, c8] 10, checkCharVal c9 with
      | some n, some c => (n + c) % 11 == 0
      | _, _ => false) = true := hchk0
  rw [hN] at hchk2
  cases hcc : checkCharVal c9 with
  | none =>
    rw [hcc] at hchk2
    simp at hchk2
  | some cv =>
    rw [hcc] at hchk2
    simp only [beq_iff_eq] at hchk2
    obtain ⟨hle, h10, h9d⟩ := checkCharVal_le hcc
    have h13 := isbn10to13_eq (String.mk [c0, c1, c2, c3, c4, c5, c6, c7, c8, c9]) rfl M hM
    have h31 := isbn13to10_eq
      (String.mk ('9' :: '7' :: '8' ::
        (String.mk [c0, c1, c2, c3, c4, c5, c6, c7, c8, c9]).data.take 9 ++
        [natDigitChar ((10 - M % 10) % 10)])) rfl rfl N hN
    have hchar : (if (11 - N % 11) % 11 = 10 then 'X'
        else natDigitChar ((11 - N % 11) % 11)) = c9 := by
      have hceq : (11 - N % 11) % 11 = cv := by omega
      rw [hceq]
      by_cases hv : cv = 10
      · rw [if_pos hv]; exact (h10 hv).symm
      · rw [if_neg hv]; exact h9d (by omega)
    refine ⟨_, h13, ?_⟩
    rw [h31, hchar]
    rfl

/-- Witness for C4 at the spec's own valid ISBN-10. -/
theorem isbn_round_trip_witness :
    isValidISBN10 "0306406152" = true ∧
    ∃ t, isbn10to13 "0306406152" = some t ∧ isbn13to10 t = some "0306406152" :=
  ⟨by decide, isbn_round_trip "0306406152" (by decide)⟩

end ShelfScan
